import Mathlib

/-!
Verification of the Protego alert lifecycle and notification dispatch
engine against its specification.

The repository ships the React/TypeScript client (components, the Zustand
store, the axios API bindings) together with documentation of the FastAPI
backend; the backend handlers themselves are not part of the source tree.
Client-side behaviour is therefore embedded directly from the source
files, while the server-side state machine (alert store, countdown
scheduler, session registry, notification dispatcher) is modelled from
the specification, with each such definition marked
`Modelled from the spec:`.
-/

namespace Protego

/-! ## Client constants and request construction (from the source) -/

/-- `src/frontend/src/constants/alertTypes.js`, `ALERT_TYPES`: the
JavaScript object literal mapping alert-type constant names to backend
enum strings, modelled as an association list of property names to
property values.  The object defines exactly seven members and no `SOS`
member. -/
def ALERT_TYPES : List (String × String) :=
  [("SCREAM", "SCREAM"), ("FALL", "FALL"), ("DISTRESS", "DISTRESS"),
   ("PANIC", "PANIC"), ("MOTION_ANOMALY", "MOTION_ANOMALY"),
   ("SOUND_ANOMALY", "SOUND_ANOMALY"), ("VOICE_ACTIVATION", "VOICE_ACTIVATION")]

/-- JavaScript property access on an object modelled as an association
list: `obj.k` evaluates to the property's value, or to `undefined`
(here `none`) when the object has no such property. -/
def jsProp (obj : List (String × String)) (key : String) : Option String :=
  (obj.find? (fun p => p.1 == key)).map (fun p => p.2)

/-- The spec's enumerated signal origins (§3), in the uppercase form the
client constants file says must match the backend enum. -/
def enumeratedSignalOrigins : List String :=
  ["SCREAM", "FALL", "DISTRESS", "PANIC", "MOTION_ANOMALY",
   "SOUND_ANOMALY", "VOICE_ACTIVATION", "SOS"]

/-- The request body the client builds for `POST /api/alerts/instant`
(`src/frontend/src/services/api.ts`, `alertAPI.createInstantAlert`).
`type` is an `Option` because a missing `ALERT_TYPES` member yields the
JavaScript value `undefined`. -/
structure AlertRequestBody where
  user_id : Nat
  session_id : Option Nat
  type : Option String
  confidence : Rat
  location_lat : Option Rat
  location_lng : Option Rat
deriving DecidableEq, Repr

/-- The keys present in the JSON serialization of the request body, in
object-literal order: `JSON.stringify` (used by axios) keeps `null`
fields but drops fields whose value is `undefined`, so `type` appears
exactly when its value is defined. -/
def AlertRequestBody.jsonKeys (b : AlertRequestBody) : List String :=
  ["user_id", "session_id"]
    ++ (if b.type.isSome then ["type"] else [])
    ++ ["confidence", "location_lat", "location_lng"]

/-- `src/unnamed/part_004`, `triggerSOS` (lines 203 to 211): the body
passed to `alertAPI.createInstantAlert` on an SOS button press; the
`type` field is the property access `ALERT_TYPES.SOS`. -/
def triggerSOSBody (userId : Nat) (sessionId : Option Nat)
    (loc : Option (Rat × Rat)) : AlertRequestBody :=
  { user_id := userId
    session_id := sessionId
    type := jsProp ALERT_TYPES "SOS"
    confidence := 1
    location_lat := loc.map Prod.fst
    location_lng := loc.map Prod.snd }

/-- `src/unnamed/part_004` and `part_005`/`part_012`, `handleVoiceAlert`:
the body passed to `alertAPI.createInstantAlert` on the voice-activation
keyword; the `type` field is the property access
`ALERT_TYPES.VOICE_ACTIVATION`. -/
def handleVoiceAlertBody (userId : Nat) (sessionId : Option Nat)
    (loc : Option (Rat × Rat)) : AlertRequestBody :=
  { user_id := userId
    session_id := sessionId
    type := jsProp ALERT_TYPES "VOICE_ACTIVATION"
    confidence := 1
    location_lat := loc.map Prod.fst
    location_lng := loc.map Prod.snd }

/-! ## The client countdown component (from the source) -/

/-- `src/frontend/src/components/CountdownAlert.jsx` line 12: the
countdown starts from the literal `5` ("Start countdown from 5
seconds"). -/
def countdownInitialSeconds : Nat := 5

/-- The countdown delay `CountdownAlert` arms, as a function of the
deployment's configured countdown delay: the component reads no
configuration (no prop merely the hard-coded initial value), so the
armed delay is `countdownInitialSeconds` whatever the configuration
says. -/
def countdownDelayArmed (_configuredDelay : Nat) : Nat :=
  countdownInitialSeconds

/-! ## The client store (`src/frontend/src/store/useUserStore.ts`) -/

/-- The walk-session record as the client store declares it. -/
structure ClientWalkSession where
  id : Nat
  user_id : Nat
  start_time : Nat
  end_time : Option Nat
  status : String
deriving DecidableEq, Repr

/-- The pending-alert record as the client store declares it. -/
structure PendingAlert where
  id : Nat
  type : String
  timestamp : Nat
deriving DecidableEq, Repr

/-- `useUserStore` state: the fields of the Zustand store that the walk
and alert actions touch.  The store file ships a TypeScript and a
JavaScript variant; the JavaScript one additionally holds the
`countdown` field that `CountdownAlert` renders, and both variants
define `stopSession` identically. -/
structure UserStoreState where
  activeSession : Option ClientWalkSession
  isWalking : Bool
  pendingAlert : Option PendingAlert
  countdown : Option Int
deriving DecidableEq, Repr

/-- `startSession` store action: sets the active session and the walking
flag, nothing else. -/
def UserStoreState.startSession (s : UserStoreState)
    (session : ClientWalkSession) : UserStoreState :=
  { s with activeSession := some session, isWalking := true }

/-- `stopSession` store action (`useUserStore.ts` line 66):
`set ... activeSession: null, isWalking: false ...` — it mentions no
other field. -/
def UserStoreState.stopSession (s : UserStoreState) : UserStoreState :=
  { s with activeSession := none, isWalking := false }

/-- `setPendingAlert` store action. -/
def UserStoreState.setPendingAlert (s : UserStoreState)
    (a : Option PendingAlert) : UserStoreState :=
  { s with pendingAlert := a }

/-- `clearPendingAlert` store action (JavaScript variant: also resets the
countdown display). -/
def UserStoreState.clearPendingAlert (s : UserStoreState) : UserStoreState :=
  { s with pendingAlert := none, countdown := none }

/-- `setCountdown` store action. -/
def UserStoreState.setCountdown (s : UserStoreState) (n : Int) : UserStoreState :=
  { s with countdown := some n }

/-! ## Error taxonomy (spec §7) -/

/-- Modelled from the spec: the error taxonomy of §7. -/
inductive EngineError
  | conflict
  | notFound
  | invalidState
  | noContacts
deriving DecidableEq, Repr

/-! ## Alert store and countdown scheduler (spec §4.2)

The backend alert handlers (`/api/alerts/`, `/api/alerts/instant`,
`/api/alerts/id/cancel`) are not in the source tree; the state machine
below is modelled from spec §4.2 and §4.3. -/

/-- Alert status enumeration (spec §3, and the client's `ALERT_STATUS`
constants). -/
inductive AlertStatus
  | pending
  | triggered
  | cancelled
  | safe
deriving DecidableEq, Repr

/-- Modelled from the spec: the per-alert record fields the state
machine governs. -/
structure AlertState where
  createdAt : Nat
  status : AlertStatus
  triggeredAt : Option Nat
  cancelledAt : Option Nat
deriving DecidableEq, Repr

/-- An alert record together with the instrumentation the spec's
properties speak about: how many times the Notification Dispatcher has
been invoked for this alert, and how many cancel calls have
succeeded. -/
structure AlertRun where
  st : AlertState
  dispatches : Nat
  cancelOks : Nat
deriving DecidableEq, Repr

/-- Modelled from the spec: `cancel(alertId)` — atomically check-and-set
`pending → cancelled`; fails with `InvalidStateError` if the alert is no
longer pending. -/
def cancelAlert (a : AlertState) (now : Nat) : Except EngineError AlertState :=
  if a.status = AlertStatus.pending then
    Except.ok { a with status := AlertStatus.cancelled, cancelledAt := some now }
  else
    Except.error EngineError.invalidState

/-- Modelled from the spec: countdown completion — atomically
check-and-set `pending → triggered`, invoking the Notification
Dispatcher exactly at the successful transition; if another actor
already moved the alert out of `pending`, the timer fires as a no-op. -/
def expireStep (r : AlertRun) (now : Nat) : AlertRun :=
  if r.st.status = AlertStatus.pending then
    { st := { r.st with status := AlertStatus.triggered, triggeredAt := some now }
      dispatches := r.dispatches + 1
      cancelOks := r.cancelOks }
  else r

/-- The effect of a cancel call on the instrumented record: a successful
check-and-set counts as a successful cancellation, a failed one leaves
the record untouched. -/
def cancelStep (r : AlertRun) (now : Nat) : AlertRun :=
  match cancelAlert r.st now with
  | Except.ok a => { st := a, dispatches := r.dispatches, cancelOks := r.cancelOks + 1 }
  | Except.error _ => r

/-- Modelled from the spec: `markSafe(alertId)` — allowed only from
`triggered`; idempotent if already `safe`; it does not invoke the
dispatcher. -/
def markSafeStep (r : AlertRun) : AlertRun :=
  if r.st.status = AlertStatus.triggered then
    { r with st := { r.st with status := AlertStatus.safe } }
  else r

/-- The operations that can reach an alert record after its creation:
the countdown scheduler's expiry, an explicit cancel call, and the
operator-only markSafe. -/
inductive AlertOp
  | expire (now : Nat)
  | cancel (now : Nat)
  | markSafe
deriving DecidableEq, Repr

/-- One atomic step of the per-alert state machine: the spec requires
each transition to be a single atomic compare-and-swap on the record, so
an interleaving of concurrent writers is a sequence of these steps. -/
def alertStep (r : AlertRun) (op : AlertOp) : AlertRun :=
  match op with
  | AlertOp.expire now => expireStep r now
  | AlertOp.cancel now => cancelStep r now
  | AlertOp.markSafe => markSafeStep r

/-- Run a sequence of atomic steps (one interleaving of the concurrent
actors) over an alert record. -/
def runAlert (r : AlertRun) (ops : List AlertOp) : AlertRun :=
  ops.foldl alertStep r

/-- Modelled from the spec: `submit(candidate)` — an instant candidate
is created directly in `triggered` with `triggeredAt = now` and handed
to the dispatcher synchronously, with no countdown timer; otherwise the
alert is created `pending` and a countdown timer is armed for the
configured delay.  The second component is the armed timer delay, if
any. -/
def submit (instant : Bool) (now cfgDelay : Nat) : AlertRun × Option Nat :=
  if instant then
    ({ st := { createdAt := now, status := AlertStatus.triggered
               triggeredAt := some now, cancelledAt := none }
       dispatches := 1, cancelOks := 0 }, none)
  else
    ({ st := { createdAt := now, status := AlertStatus.pending
               triggeredAt := none, cancelledAt := none }
       dispatches := 0, cancelOks := 0 }, some cfgDelay)

/-! ## The client cancel handler (`CountdownAlert.jsx`, `handleCancel`) -/

/-- The component state and user-visible output `handleCancel` controls:
the `cancelling` flag, whether the store's pending alert was cleared,
and the message (if any) the component renders to the user about the
outcome.  The component's JSX contains no element that reports a cancel
failure. -/
structure CancelUI where
  cancelling : Bool
  pendingAlertCleared : Bool
  userMessage : Option String
deriving DecidableEq, Repr

/-- `src/frontend/src/components/CountdownAlert.jsx` lines 28 to 37,
`handleCancel`: on a successful `alertAPI.cancelAlert` the pending alert
is cleared; on a failure the `catch` block writes
`console.error('Failed to cancel alert:', err)` and re-enables the
button (`setCancelling(false)`) — no user-facing message is produced on
either path. -/
def handleCancel (apiResult : Except EngineError AlertState) : CancelUI :=
  match apiResult with
  | Except.ok _ =>
    { cancelling := true, pendingAlertCleared := true, userMessage := none }
  | Except.error _ =>
    { cancelling := false, pendingAlertCleared := false, userMessage := none }

/-! ## Session registry (spec §4.1)

The backend walk handlers (`/api/walks/start`, `/api/walks/stop`) are
not in the source tree; the registry below is modelled from spec
§4.1. -/

/-- Walk-session status (spec §3). -/
inductive SessionStatus
  | active
  | ended
deriving DecidableEq, Repr

/-- Modelled from the spec: the WalkSession record of §3. -/
structure WalkSess where
  id : Nat
  userId : Nat
  startTime : Nat
  endTime : Option Nat
  status : SessionStatus
deriving DecidableEq, Repr

/-- Modelled from the spec: the Session Registry's durable state — the
persisted sessions plus the id counter for fresh sessions. -/
structure Registry where
  nextId : Nat
  sessions : List WalkSess
deriving DecidableEq, Repr

/-- Does this session count as an active session of the given user? -/
def isActiveFor (uid : Nat) (s : WalkSess) : Bool :=
  s.userId == uid && s.status == SessionStatus.active

/-- Does the registry already hold an active session for the user? -/
def hasActive (reg : Registry) (uid : Nat) : Bool :=
  reg.sessions.any (isActiveFor uid)

/-- How many active sessions the registry holds for the user. -/
def activeCount (reg : Registry) (uid : Nat) : Nat :=
  (reg.sessions.filter (isActiveFor uid)).length

/-- Modelled from the spec: `startSession(userId)` — fails with
`ConflictError` if an active session already exists for that user
(reject, never silently replace); otherwise persists a fresh `active`
session. -/
def startSessionSrv (reg : Registry) (uid now : Nat) :
    Except EngineError (WalkSess × Registry) :=
  if hasActive reg uid then
    Except.error EngineError.conflict
  else
    let s : WalkSess :=
      { id := reg.nextId, userId := uid, startTime := now
        endTime := none, status := SessionStatus.active }
    Except.ok (s, { nextId := reg.nextId + 1, sessions := s :: reg.sessions })

/-- End the session with the given id, leaving every other session
untouched. -/
def endSess (sid now : Nat) (s : WalkSess) : WalkSess :=
  if s.id == sid then
    { s with status := SessionStatus.ended, endTime := some now }
  else s

/-- Modelled from the spec: `stopSession(sessionId)` — `NotFoundError`
if no such session, `InvalidStateError` if already ended; otherwise sets
`endTime` and status `ended`. -/
def stopSessionSrv (reg : Registry) (sid now : Nat) :
    Except EngineError Registry :=
  match reg.sessions.find? (fun s => s.id == sid) with
  | none => Except.error EngineError.notFound
  | some s =>
    if s.status = SessionStatus.ended then
      Except.error EngineError.invalidState
    else
      Except.ok { nextId := reg.nextId, sessions := reg.sessions.map (endSess sid now) }

/-- The registry operations reachable from the outside. -/
inductive RegOp
  | start (uid now : Nat)
  | stop (sid now : Nat)
deriving DecidableEq, Repr

/-- One registry request: a failed request leaves the durable state
unchanged. -/
def regStep (reg : Registry) (op : RegOp) : Registry :=
  match op with
  | RegOp.start uid now =>
    match startSessionSrv reg uid now with
    | Except.ok p => p.2
    | Except.error _ => reg
  | RegOp.stop sid now =>
    match stopSessionSrv reg sid now with
    | Except.ok reg2 => reg2
    | Except.error _ => reg

/-- Run a sequence of registry requests. -/
def runReg (reg : Registry) (ops : List RegOp) : Registry :=
  ops.foldl regStep reg

/-- The registry before any request. -/
def emptyRegistry : Registry :=
  { nextId := 0, sessions := [] }

/-- The Session Registry invariant: at most one active session per
user. -/
def RegInv (reg : Registry) : Prop :=
  ∀ uid, activeCount reg uid ≤ 1

/-- Modelled from the spec: the durable server state the walk and alert
endpoints share — the Session Registry and the alert store (alert id
paired with its instrumented record). -/
structure SystemState where
  registry : Registry
  alerts : List (Nat × AlertRun)
deriving DecidableEq, Repr

/-- Modelled from the spec: the walk/stop handler — ends the session in
the Session Registry and performs no alert-store operation whatsoever
(spec §4.1: stopping does not cascade-cancel pending alerts, whose
countdowns continue independently). -/
def systemStopWalk (st : SystemState) (sid now : Nat) :
    Except EngineError SystemState :=
  match stopSessionSrv st.registry sid now with
  | Except.ok reg2 => Except.ok { registry := reg2, alerts := st.alerts }
  | Except.error e => Except.error e

/-! ## Notification dispatcher (spec §4.3, §4.4)

The backend dispatcher and the Twilio gateway adapter are not in the
source tree; they are modelled from spec §4.3 and §4.4. -/

/-- Modelled from the spec: the gateway adapter's `send` outcome — ok,
a retryable `TransientError`, or a terminal `PermanentError`. -/
inductive SendOutcome
  | ok
  | transient
  | permanent
deriving DecidableEq, Repr

/-- The recorded outcome of a contact's notification attempt. -/
inductive AttemptOutcome
  | sent
  | failed
deriving DecidableEq, Repr

/-- Modelled from the spec: a NotificationAttempt record — the contact,
its terminal outcome, and how many provider calls were spent on it. -/
structure NotificationAttempt where
  contact : String
  outcome : AttemptOutcome
  calls : Nat
deriving DecidableEq, Repr

/-- Modelled from the spec: the bounded retry budget — by default 2
additional attempts after the first. -/
def retryLimit : Nat := 2

/-- Modelled from the spec: per-contact send with bounded retry.
`gw n` is the provider's answer to the contact's `n`-th call (counted
from `attempt`); a transient error consumes one retry, a permanent
error or an exhausted budget records the attempt `failed`, a success
records it `sent`.  Returns the terminal outcome and the number of
provider calls made. -/
def sendWithRetry (gw : Nat → SendOutcome) (attempt : Nat) :
    Nat → AttemptOutcome × Nat
  | 0 =>
    match gw attempt with
    | SendOutcome.ok => (AttemptOutcome.sent, 1)
    | SendOutcome.transient => (AttemptOutcome.failed, 1)
    | SendOutcome.permanent => (AttemptOutcome.failed, 1)
  | fuel + 1 =>
    match gw attempt with
    | SendOutcome.ok => (AttemptOutcome.sent, 1)
    | SendOutcome.permanent => (AttemptOutcome.failed, 1)
    | SendOutcome.transient =>
      let r := sendWithRetry gw (attempt + 1) fuel
      (r.1, r.2 + 1)

/-- Modelled from the spec: the overall dispatch result — `success`
(all contacts notified), `incomplete` (the spec's `partial`: some
failed, some sent), `allFailed` (the spec's `failed`: zero
notified). -/
inductive DispatchResult
  | success
  | incomplete
  | allFailed
deriving DecidableEq, Repr

/-- The dispatcher's answer: the result (or the error that aborted the
dispatch) together with the recorded NotificationAttempts. -/
structure DispatchOutcome where
  result : Except EngineError DispatchResult
  attempts : List NotificationAttempt
deriving Repr

/-- The attempt record the dispatcher produces for one contact;
`gw c` is the provider's behaviour towards contact `c`. -/
def attemptFor (gw : String → Nat → SendOutcome) (c : String) :
    NotificationAttempt :=
  let r := sendWithRetry (gw c) 0 retryLimit
  { contact := c, outcome := r.1, calls := r.2 }

/-- How many recorded attempts have the given outcome. -/
def countOutcome (l : List NotificationAttempt) (o : AttemptOutcome) : Nat :=
  (l.filter (fun a => a.outcome == o)).length

/-- Modelled from the spec: `dispatch(alert)` — fails the whole dispatch
with `NoContactsError` before any provider call if the trusted-contact
list is empty; otherwise sends to every contact independently (one
contact's failure never blocks the others), records one
NotificationAttempt per contact, and aggregates: every attempt `sent` is
`success`, none `sent` is `allFailed`, otherwise `incomplete` — sent
notifications are never rolled back. -/
def dispatch (contacts : List String) (gw : String → Nat → SendOutcome) :
    DispatchOutcome :=
  if contacts.isEmpty then
    { result := Except.error EngineError.noContacts, attempts := [] }
  else
    let attempts := contacts.map (attemptFor gw)
    let res :=
      if countOutcome attempts AttemptOutcome.failed = 0 then
        DispatchResult.success
      else if countOutcome attempts AttemptOutcome.sent = 0 then
        DispatchResult.allFailed
      else
        DispatchResult.incomplete
    { result := Except.ok res, attempts := attempts }

/-- Total number of provider calls a dispatch made. -/
def providerCalls (d : DispatchOutcome) : Nat :=
  (d.attempts.map (fun a => a.calls)).sum

/-- A concrete gateway behaviour for the spec's scenario tests: every
call for the contact "bob" fails permanently, every other contact
succeeds on the first call. -/
def gwOneBad : String → Nat → SendOutcome := fun c _ =>
  if c == "bob" then SendOutcome.permanent else SendOutcome.ok

/-- The state invariant tying status, timestamps, dispatcher
invocations and successful cancellations together. -/
def AlertInv (r : AlertRun) : Prop :=
  (r.st.status = AlertStatus.pending ∧ r.dispatches = 0 ∧ r.cancelOks = 0
    ∧ r.st.triggeredAt = none ∧ r.st.cancelledAt = none)
  ∨ (r.st.status = AlertStatus.triggered ∧ r.dispatches = 1 ∧ r.cancelOks = 0
    ∧ r.st.triggeredAt.isSome ∧ r.st.cancelledAt = none)
  ∨ (r.st.status = AlertStatus.cancelled ∧ r.dispatches = 0 ∧ r.cancelOks = 1
    ∧ r.st.triggeredAt = none ∧ r.st.cancelledAt.isSome)
  ∨ (r.st.status = AlertStatus.safe ∧ r.dispatches = 1 ∧ r.cancelOks = 0
    ∧ r.st.triggeredAt.isSome ∧ r.st.cancelledAt = none)

end Protego

namespace Protego

theorem alertStep_inv {r : AlertRun} (h : AlertInv r) (op : AlertOp) :
    AlertInv (alertStep r op) := by
  rcases h with h | h | h | h <;>
    obtain ⟨hs, hd, hc, ht, hx⟩ := h <;>
    cases op <;>
    simp [alertStep, expireStep, cancelStep, cancelAlert, markSafeStep, AlertInv,
      hs, hd, hc, ht, hx]

theorem runAlert_inv {r : AlertRun} (h : AlertInv r) (ops : List AlertOp) :
    AlertInv (runAlert r ops) := by
  induction ops generalizing r with
  | nil => exact h
  | cons op ops ih => exact ih (alertStep_inv h op)

theorem submit_inv (b : Bool) (now cfg : Nat) : AlertInv (submit b now cfg).1 := by
  cases b <;> simp [submit, AlertInv]

/-- A cancelled record is terminal: every further operation leaves the
whole instrumented record unchanged. -/
theorem alertStep_cancelled {r : AlertRun}
    (h : r.st.status = AlertStatus.cancelled) (op : AlertOp) :
    alertStep r op = r := by
  cases op <;> simp [alertStep, expireStep, cancelStep, cancelAlert, markSafeStep, h]

/-- A safe record is terminal. -/
theorem alertStep_safe {r : AlertRun}
    (h : r.st.status = AlertStatus.safe) (op : AlertOp) :
    alertStep r op = r := by
  cases op <;> simp [alertStep, expireStep, cancelStep, cancelAlert, markSafeStep, h]

theorem runAlert_nil (r : AlertRun) : runAlert r [] = r := rfl

theorem runAlert_cons (r : AlertRun) (op : AlertOp) (ops : List AlertOp) :
    runAlert r (op :: ops) = runAlert (alertStep r op) ops := rfl

theorem runAlert_cancelled {r : AlertRun}
    (h : r.st.status = AlertStatus.cancelled) (ops : List AlertOp) :
    runAlert r ops = r := by
  induction ops with
  | nil => rfl
  | cons op ops ih => rw [runAlert_cons, alertStep_cancelled h]; exact ih

theorem runAlert_safe {r : AlertRun}
    (h : r.st.status = AlertStatus.safe) (ops : List AlertOp) :
    runAlert r ops = r := by
  induction ops with
  | nil => rfl
  | cons op ops ih => rw [runAlert_cons, alertStep_safe h]; exact ih

/-- From a triggered record the status can only stay triggered or move
to safe. -/
theorem runAlert_triggered {r : AlertRun}
    (h : r.st.status = AlertStatus.triggered) (ops : List AlertOp) :
    (runAlert r ops).st.status = AlertStatus.triggered
    ∨ (runAlert r ops).st.status = AlertStatus.safe := by
  induction ops generalizing r with
  | nil => exact Or.inl h
  | cons op ops ih =>
    rw [runAlert_cons]
    cases op with
    | expire now =>
      have hstep : alertStep r (AlertOp.expire now) = r := by
        simp [alertStep, expireStep, h]
      rw [hstep]; exact ih h
    | cancel now =>
      have hstep : alertStep r (AlertOp.cancel now) = r := by
        simp [alertStep, cancelStep, cancelAlert, h]
      rw [hstep]; exact ih h
    | markSafe =>
      have hsafe : (alertStep r AlertOp.markSafe).st.status = AlertStatus.safe := by
        simp [alertStep, markSafeStep, h]
      rw [runAlert_safe hsafe]
      exact Or.inr hsafe

end Protego

/-- Claim C10: every alert candidate submitted to Signal Intake carries a
type from the enumerated signal origins, and every SOS-button submission
carries the sos type.  The code violates this: `ALERT_TYPES` defines no
`SOS` member, so `triggerSOS` sends `undefined` as the type and the
serialized request body omits the `type` key entirely, while the
voice-activation path does carry its enumerated type. -/
theorem Protego.triggerSOS_type_undefined :
    (Protego.triggerSOSBody 1 none none).type = none
    ∧ ((Protego.triggerSOSBody 1 none none).jsonKeys.contains "type") = false
    ∧ (∀ t ∈ Protego.enumeratedSignalOrigins,
        (Protego.triggerSOSBody 1 none none).type ≠ some t)
    ∧ (Protego.handleVoiceAlertBody 1 none none).type = some "VOICE_ACTIVATION" := by
  decide

/-- Claim C3 (counterexample): the claim says the countdown delay armed
before a pending alert triggers is a configuration value; but with the
delay configured to 7 seconds the component still arms 5 seconds. -/
theorem Protego.countdownDelay_ignores_configuration :
    Protego.countdownDelayArmed 7 ≠ 7 := by
  decide

/-- Claim C3 (amended): the countdown delay armed by the client component
is the hard-coded constant 5 seconds, independent of any configured
delay value. -/
theorem Protego.countdownDelay_hard_coded :
    ∀ cfg : Nat, Protego.countdownDelayArmed cfg = 5 := by
  intro cfg
  rfl

/-- Claim C1: for every alert, the race between an explicit cancel call
and the countdown expiry is mutually exclusive — no interleaving of the
atomic check-and-set steps produces both a successful cancellation and a
dispatched notification for the same alert, and in the two-writer race
exactly one of them wins the transition out of pending. -/
theorem Protego.cancel_expiry_race_mutual_exclusion
    (t cfg t1 t2 : Nat) (ops : List Protego.AlertOp) :
    ((Protego.runAlert (Protego.submit false t cfg).1 ops).cancelOks = 0
      ∨ (Protego.runAlert (Protego.submit false t cfg).1 ops).dispatches = 0)
    ∧ (Protego.runAlert (Protego.submit false t cfg).1
        [Protego.AlertOp.cancel t1, Protego.AlertOp.expire t2]).cancelOks = 1
    ∧ (Protego.runAlert (Protego.submit false t cfg).1
        [Protego.AlertOp.cancel t1, Protego.AlertOp.expire t2]).dispatches = 0
    ∧ (Protego.runAlert (Protego.submit false t cfg).1
        [Protego.AlertOp.expire t2, Protego.AlertOp.cancel t1]).dispatches = 1
    ∧ (Protego.runAlert (Protego.submit false t cfg).1
        [Protego.AlertOp.expire t2, Protego.AlertOp.cancel t1]).cancelOks = 0 := by
  refine ⟨?_, rfl, rfl, rfl, rfl⟩
  have hinv := Protego.runAlert_inv (Protego.submit_inv false t cfg) ops
  rcases hinv with h | h | h | h <;> obtain ⟨hs, hd, hc, ht, hx⟩ := h
  · exact Or.inl hc
  · exact Or.inl hc
  · exact Or.inr hd
  · exact Or.inl hc

/-- Claim C2: when a pending alert's countdown completes, the status is
atomically check-and-set pending → triggered (a no-op on any record no
longer pending), and over every run the Notification Dispatcher has been
invoked exactly once precisely when the alert reached triggered (or the
operator later marked it safe) — never zero times, never twice. -/
theorem Protego.countdown_completion_dispatches_once
    (t cfg now : Nat) (ops : List Protego.AlertOp) :
    (∀ r : Protego.AlertRun, r.st.status = Protego.AlertStatus.pending →
      Protego.expireStep r now
        = { st := { r.st with status := Protego.AlertStatus.triggered,
                              triggeredAt := some now },
            dispatches := r.dispatches + 1, cancelOks := r.cancelOks })
    ∧ (∀ r : Protego.AlertRun, r.st.status ≠ Protego.AlertStatus.pending →
      Protego.expireStep r now = r)
    ∧ (Protego.runAlert (Protego.submit false t cfg).1 ops).dispatches ≤ 1
    ∧ ((Protego.runAlert (Protego.submit false t cfg).1 ops).dispatches = 1
        ↔ ((Protego.runAlert (Protego.submit false t cfg).1 ops).st.status
              = Protego.AlertStatus.triggered
           ∨ (Protego.runAlert (Protego.submit false t cfg).1 ops).st.status
              = Protego.AlertStatus.safe)) := by
  have hinv := Protego.runAlert_inv (Protego.submit_inv false t cfg) ops
  refine ⟨?_, ?_, ?_, ?_⟩
  · intro r h
    simp [Protego.expireStep, h]
  · intro r h
    simp [Protego.expireStep, h]
  · rcases hinv with h | h | h | h <;> obtain ⟨hs, hd, hc, ht, hx⟩ := h <;> simp [hd]
  · rcases hinv with h | h | h | h <;> obtain ⟨hs, hd, hc, ht, hx⟩ := h <;> simp [hs, hd]

/-- Witness for claim C2 at concrete inputs: a pending record expiring at
time 5 transitions to triggered with one dispatch, an already-cancelled
record is left untouched, and the run consisting of one expiry has
dispatched exactly once. -/
theorem Protego.countdown_completion_dispatches_once_witness :
    Protego.expireStep ⟨⟨0, Protego.AlertStatus.pending, none, none⟩, 0, 0⟩ 5
      = ⟨⟨0, Protego.AlertStatus.triggered, some 5, none⟩, 1, 0⟩
    ∧ Protego.expireStep ⟨⟨0, Protego.AlertStatus.cancelled, none, some 2⟩, 0, 1⟩ 5
      = ⟨⟨0, Protego.AlertStatus.cancelled, none, some 2⟩, 0, 1⟩
    ∧ (Protego.runAlert (Protego.submit false 0 5).1
        [Protego.AlertOp.expire 5]).dispatches = 1 := by
  refine ⟨?_, ?_, ?_⟩
  · exact ((Protego.countdown_completion_dispatches_once 0 5 5 []).1
      ⟨⟨0, Protego.AlertStatus.pending, none, none⟩, 0, 0⟩ (by decide)).trans (by decide)
  · exact (Protego.countdown_completion_dispatches_once 0 5 5 []).2.1
      ⟨⟨0, Protego.AlertStatus.cancelled, none, some 2⟩, 0, 1⟩ (by decide)
  · exact ((Protego.countdown_completion_dispatches_once 0 5 5
      [Protego.AlertOp.expire 5]).2.2.2).mpr (Or.inl (by decide))

/-- Claim C4: an alert submitted through the instant path is created
directly in status triggered with triggeredAt set to the submission
time, the Notification Dispatcher hand-off happens synchronously inside
submit (one dispatch already made when submit returns), and no countdown
timer is armed. -/
theorem Protego.instant_submit_immediate (now cfg : Nat) :
    (Protego.submit true now cfg).1.st.status = Protego.AlertStatus.triggered
    ∧ (Protego.submit true now cfg).1.st.triggeredAt = some now
    ∧ (Protego.submit true now cfg).1.dispatches = 1
    ∧ (Protego.submit true now cfg).2 = none := by
  simp [Protego.submit]

/-- Claim C5 (counterexample): after the countdown has fired, a cancel
call does fail with InvalidStateError, but the client shows the user no
message at all — `handleCancel` only logs to the developer console, so
`userMessage` is `none` instead of a clear contacts-may-already-have-
been-notified message. -/
theorem Protego.cancel_failure_shows_no_message :
    Protego.cancelAlert
        (Protego.expireStep (Protego.submit false 0 5).1 5).st 6
      = Except.error Protego.EngineError.invalidState
    ∧ (Protego.handleCancel
        (Except.error Protego.EngineError.invalidState)).userMessage = none := by
  exact ⟨rfl, rfl⟩

/-- Claim C5 (amended): a cancel call on an alert that is no longer
pending fails with InvalidStateError, and the client treats it as
recoverable — the button is re-enabled and the pending alert is not
cleared — but the failure is logged only to the console: no user-facing
message (in particular no contacts-may-have-been-notified message) is
shown. -/
theorem Protego.cancel_after_trigger_invalid_state
    (a : Protego.AlertState) (now : Nat)
    (h : a.status ≠ Protego.AlertStatus.pending) :
    Protego.cancelAlert a now = Except.error Protego.EngineError.invalidState
    ∧ (Protego.handleCancel (Protego.cancelAlert a now)).cancelling = false
    ∧ (Protego.handleCancel (Protego.cancelAlert a now)).pendingAlertCleared = false
    ∧ (Protego.handleCancel (Protego.cancelAlert a now)).userMessage = none := by
  have hc : Protego.cancelAlert a now = Except.error Protego.EngineError.invalidState := by
    simp [Protego.cancelAlert, h]
  rw [hc]
  exact ⟨rfl, rfl, rfl, rfl⟩

/-- Witness for claim C5's amended theorem at a concrete triggered
record. -/
theorem Protego.cancel_after_trigger_invalid_state_witness :
    Protego.cancelAlert ⟨0, Protego.AlertStatus.triggered, some 5, none⟩ 6
      = Except.error Protego.EngineError.invalidState := by
  exact (Protego.cancel_after_trigger_invalid_state
    ⟨0, Protego.AlertStatus.triggered, some 5, none⟩ 6 (by decide)).1

/-- Claim C6 (counterexample): after the operator-only markSafe on an
instant-submitted alert, the record has triggeredAt = some 0 while its
status is no longer triggered — so both "triggeredAt is non-null iff
status is triggered" and "once triggered the status never changes
again" fail at this concrete input. -/
theorem Protego.safe_status_breaks_triggered_iff :
    (Protego.runAlert (Protego.submit true 0 5).1
        [Protego.AlertOp.markSafe]).st.triggeredAt = some 0
    ∧ (Protego.runAlert (Protego.submit true 0 5).1
        [Protego.AlertOp.markSafe]).st.status ≠ Protego.AlertStatus.triggered
    ∧ (Protego.submit true 0 5).1.st.status = Protego.AlertStatus.triggered := by
  decide

/-- Claim C6 (amended): for every reachable alert record, triggeredAt is
non-null iff the status is triggered or safe, cancelledAt is non-null
iff the status is cancelled, the two timestamps are never
simultaneously non-null; a cancelled record never changes again, and a
triggered record can only stay triggered or move to safe (operator-only
markSafe) — it never re-opens and never becomes cancelled. -/
theorem Protego.alert_timestamp_invariants
    (b : Bool) (t cfg : Nat) (ops ops2 : List Protego.AlertOp)
    (r : Protego.AlertRun)
    (hr : r = Protego.runAlert (Protego.submit b t cfg).1 ops) :
    (r.st.triggeredAt.isSome
      ↔ (r.st.status = Protego.AlertStatus.triggered
          ∨ r.st.status = Protego.AlertStatus.safe))
    ∧ (r.st.cancelledAt.isSome ↔ r.st.status = Protego.AlertStatus.cancelled)
    ∧ ¬(r.st.triggeredAt.isSome ∧ r.st.cancelledAt.isSome)
    ∧ (r.st.status = Protego.AlertStatus.cancelled → Protego.runAlert r ops2 = r)
    ∧ (r.st.status = Protego.AlertStatus.triggered →
        (Protego.runAlert r ops2).st.status = Protego.AlertStatus.triggered
        ∨ (Protego.runAlert r ops2).st.status = Protego.AlertStatus.safe) := by
  have hinv : Protego.AlertInv r := by
    rw [hr]; exact Protego.runAlert_inv (Protego.submit_inv b t cfg) ops
  refine ⟨?_, ?_, ?_,
    fun h2 => Protego.runAlert_cancelled h2 ops2,
    fun h2 => Protego.runAlert_triggered h2 ops2⟩ <;>
    rcases hinv with h | h | h | h <;> obtain ⟨hs, hd, hc, ht, hx⟩ := h <;>
    simp [hs, ht, hx]

/-- Witness for claim C6's amended theorem at a concrete cancelled run:
the cancelledAt iff holds and a later expiry leaves the record
unchanged. -/
theorem Protego.alert_timestamp_invariants_witness :
    ((Protego.runAlert (Protego.submit false 0 5).1
        [Protego.AlertOp.cancel 2]).st.cancelledAt.isSome
      ↔ (Protego.runAlert (Protego.submit false 0 5).1
        [Protego.AlertOp.cancel 2]).st.status = Protego.AlertStatus.cancelled)
    ∧ Protego.runAlert
        (Protego.runAlert (Protego.submit false 0 5).1 [Protego.AlertOp.cancel 2])
        [Protego.AlertOp.expire 5]
      = Protego.runAlert (Protego.submit false 0 5).1 [Protego.AlertOp.cancel 2] := by
  refine ⟨?_, ?_⟩
  · exact (Protego.alert_timestamp_invariants false 0 5 [Protego.AlertOp.cancel 2]
      [Protego.AlertOp.expire 5] _ rfl).2.1
  · exact (Protego.alert_timestamp_invariants false 0 5 [Protego.AlertOp.cancel 2]
      [Protego.AlertOp.expire 5] _ rfl).2.2.2.1 (by decide)

theorem Protego.filter_len_zero_of_any_false {α : Type} (p : α → Bool)
    (l : List α) (h : l.any p = false) : (l.filter p).length = 0 := by
  induction l with
  | nil => rfl
  | cons x l ih =>
    rw [List.any_cons] at h
    have hx : p x = false := by
      cases hpx : p x
      · rfl
      · rw [hpx] at h; simp at h
    have hl : l.any p = false := by
      cases hal : l.any p
      · rfl
      · rw [hal] at h; simp at h
    rw [List.filter_cons]
    simp [hx, ih hl]

theorem Protego.filter_map_length_le {α : Type} (p : α → Bool) (f : α → α)
    (hf : ∀ x, p (f x) = true → p x = true) (l : List α) :
    ((l.map f).filter p).length ≤ (l.filter p).length := by
  induction l with
  | nil => exact Nat.le_refl 0
  | cons x l ih =>
    rw [List.map_cons, List.filter_cons, List.filter_cons]
    by_cases hfx : p (f x) = true
    · rw [if_pos hfx, if_pos (hf x hfx)]
      simpa using Nat.succ_le_succ ih
    · rw [if_neg hfx]
      by_cases hx : p x = true
      · rw [if_pos hx]
        simp only [List.length_cons]
        exact Nat.le_succ_of_le ih
      · rw [if_neg hx]
        exact ih

theorem Protego.isActiveFor_endSess (uid sid now : Nat) (s : Protego.WalkSess)
    (h : Protego.isActiveFor uid (Protego.endSess sid now s) = true) :
    Protego.isActiveFor uid s = true := by
  unfold Protego.endSess at h
  by_cases hid : (s.id == sid) = true
  · rw [if_pos hid] at h
    simp [Protego.isActiveFor] at h
  · rw [if_neg hid] at h
    exact h

theorem Protego.regStep_inv {reg : Protego.Registry} (h : Protego.RegInv reg)
    (op : Protego.RegOp) : Protego.RegInv (Protego.regStep reg op) := by
  cases op with
  | start uid2 now =>
    simp only [Protego.regStep, Protego.startSessionSrv]
    by_cases hact : Protego.hasActive reg uid2 = true
    · rw [if_pos hact]
      exact h
    · have hact2 : Protego.hasActive reg uid2 = false := by
        cases hb : Protego.hasActive reg uid2
        · rfl
        · exact absurd hb hact
      rw [if_neg hact]
      intro uid
      unfold Protego.activeCount
      simp only [List.filter_cons]
      by_cases hnew : Protego.isActiveFor uid
          { id := reg.nextId, userId := uid2, startTime := now,
            endTime := none, status := Protego.SessionStatus.active } = true
      · have huid : uid2 = uid := by
          unfold Protego.isActiveFor at hnew
          simp at hnew
          exact hnew
        have hzero : (reg.sessions.filter (Protego.isActiveFor uid)).length = 0 := by
          have := Protego.filter_len_zero_of_any_false
            (Protego.isActiveFor uid2) reg.sessions hact2
          rw [huid] at this
          exact this
        rw [if_pos hnew]
        simp [hzero]
      · rw [if_neg hnew]
        exact h uid
  | stop sid now =>
    simp only [Protego.regStep, Protego.stopSessionSrv]
    cases hf : reg.sessions.find? (fun s => s.id == sid) with
    | none => exact h
    | some s =>
      dsimp only
      by_cases hend : s.status = Protego.SessionStatus.ended
      · rw [if_pos hend]
        exact h
      · rw [if_neg hend]
        intro uid
        exact Nat.le_trans
          (Protego.filter_map_length_le (Protego.isActiveFor uid)
            (Protego.endSess sid now) (Protego.isActiveFor_endSess uid sid now)
            reg.sessions)
          (h uid)

theorem Protego.runReg_inv {reg : Protego.Registry} (h : Protego.RegInv reg)
    (ops : List Protego.RegOp) : Protego.RegInv (Protego.runReg reg ops) := by
  induction ops generalizing reg with
  | nil => exact h
  | cons op ops ih => exact ih (Protego.regStep_inv h op)

theorem Protego.emptyRegistry_inv : Protego.RegInv Protego.emptyRegistry := by
  intro uid
  exact Nat.zero_le 1

/-- Claim C7: every user has at most one active walk session in any
registry reachable from the empty one, and startSession called while
the user already has an active session fails with ConflictError and
leaves the registry unchanged (no silent replacement of the prior
session). -/
theorem Protego.one_active_session_per_user
    (ops : List Protego.RegOp) (uid : Nat)
    (reg : Protego.Registry) (now : Nat)
    (h : Protego.hasActive reg uid = true) :
    Protego.activeCount (Protego.runReg Protego.emptyRegistry ops) uid ≤ 1
    ∧ Protego.startSessionSrv reg uid now = Except.error Protego.EngineError.conflict
    ∧ Protego.regStep reg (Protego.RegOp.start uid now) = reg := by
  have hconf : Protego.startSessionSrv reg uid now
      = Except.error Protego.EngineError.conflict := by
    simp only [Protego.startSessionSrv]
    rw [if_pos h]
  refine ⟨Protego.runReg_inv Protego.emptyRegistry_inv ops uid, hconf, ?_⟩
  simp only [Protego.regStep]
  rw [hconf]

/-- Witness for claim C7 at concrete inputs: two start requests for the
same user leave exactly one active session, and a start against a
registry that already holds an active session for the user is rejected
with ConflictError, registry unchanged. -/
theorem Protego.one_active_session_per_user_witness :
    Protego.activeCount
      (Protego.runReg Protego.emptyRegistry
        [Protego.RegOp.start 1 0, Protego.RegOp.start 1 5]) 1 ≤ 1
    ∧ Protego.startSessionSrv
        { nextId := 1,
          sessions := [{ id := 0, userId := 1, startTime := 0,
                         endTime := none, status := Protego.SessionStatus.active }] }
        1 5
      = Except.error Protego.EngineError.conflict := by
  refine ⟨?_, ?_⟩
  · exact (Protego.one_active_session_per_user
      [Protego.RegOp.start 1 0, Protego.RegOp.start 1 5] 1
      { nextId := 1,
        sessions := [{ id := 0, userId := 1, startTime := 0,
                       endTime := none, status := Protego.SessionStatus.active }] }
      5 (by decide)).1
  · exact (Protego.one_active_session_per_user
      [Protego.RegOp.start 1 0, Protego.RegOp.start 1 5] 1
      { nextId := 1,
        sessions := [{ id := 0, userId := 1, startTime := 0,
                       endTime := none, status := Protego.SessionStatus.active }] }
      5 (by decide)).2.1

/-- Claim C8: stopping a walk session leaves every pending alert
unchanged — the client store's stopSession touches neither the pending
alert nor the countdown, and the server's walk/stop handler leaves the
alert store untouched, so in-flight countdowns continue
independently. -/
theorem Protego.stop_session_preserves_pending_alerts
    (s : Protego.UserStoreState) (st st2 : Protego.SystemState) (sid now : Nat)
    (h : Protego.systemStopWalk st sid now = Except.ok st2) :
    (Protego.UserStoreState.stopSession s).pendingAlert = s.pendingAlert
    ∧ (Protego.UserStoreState.stopSession s).countdown = s.countdown
    ∧ st2.alerts = st.alerts := by
  refine ⟨rfl, rfl, ?_⟩
  unfold Protego.systemStopWalk at h
  cases hstop : Protego.stopSessionSrv st.registry sid now with
  | ok reg2 =>
    rw [hstop] at h
    cases h
    rfl
  | error e =>
    rw [hstop] at h
    cases h

/-- Witness for claim C8 at a concrete system state: stopping the only
active session ends it and leaves the stored pending alert exactly as it
was. -/
theorem Protego.stop_session_preserves_pending_alerts_witness :
    (Protego.UserStoreState.stopSession
      { activeSession := some { id := 0, user_id := 1, start_time := 0,
                                end_time := none, status := "active" },
        isWalking := true,
        pendingAlert := some { id := 7, type := "SCREAM", timestamp := 3 },
        countdown := some 4 }).pendingAlert
      = some { id := 7, type := "SCREAM", timestamp := 3 }
    ∧ ({ registry := { nextId := 1,
                       sessions := [{ id := 0, userId := 1, startTime := 0,
                                      endTime := some 9,
                                      status := Protego.SessionStatus.ended }] },
         alerts := [(7, { st := { createdAt := 3,
                                  status := Protego.AlertStatus.pending,
                                  triggeredAt := none, cancelledAt := none },
                          dispatches := 0, cancelOks := 0 })] }
        : Protego.SystemState).alerts
      = ({ registry := { nextId := 1,
                         sessions := [{ id := 0, userId := 1, startTime := 0,
                                        endTime := none,
                                        status := Protego.SessionStatus.active }] },
           alerts := [(7, { st := { createdAt := 3,
                                    status := Protego.AlertStatus.pending,
                                    triggeredAt := none, cancelledAt := none },
                            dispatches := 0, cancelOks := 0 })] }
          : Protego.SystemState).alerts := by
  refine ⟨?_, ?_⟩
  · exact (Protego.stop_session_preserves_pending_alerts
      { activeSession := some { id := 0, user_id := 1, start_time := 0,
                                end_time := none, status := "active" },
        isWalking := true,
        pendingAlert := some { id := 7, type := "SCREAM", timestamp := 3 },
        countdown := some 4 }
      { registry := { nextId := 1,
                      sessions := [{ id := 0, userId := 1, startTime := 0,
                                     endTime := none,
                                     status := Protego.SessionStatus.active }] },
        alerts := [(7, { st := { createdAt := 3,
                                 status := Protego.AlertStatus.pending,
                                 triggeredAt := none, cancelledAt := none },
                         dispatches := 0, cancelOks := 0 })] }
      { registry := { nextId := 1,
                      sessions := [{ id := 0, userId := 1, startTime := 0,
                                     endTime := some 9,
                                     status := Protego.SessionStatus.ended }] },
        alerts := [(7, { st := { createdAt := 3,
                                 status := Protego.AlertStatus.pending,
                                 triggeredAt := none, cancelledAt := none },
                         dispatches := 0, cancelOks := 0 })] }
      0 9 rfl).1
  · exact (Protego.stop_session_preserves_pending_alerts
      { activeSession := some { id := 0, user_id := 1, start_time := 0,
                                end_time := none, status := "active" },
        isWalking := true,
        pendingAlert := some { id := 7, type := "SCREAM", timestamp := 3 },
        countdown := some 4 }
      { registry := { nextId := 1,
                      sessions := [{ id := 0, userId := 1, startTime := 0,
                                     endTime := none,
                                     status := Protego.SessionStatus.active }] },
        alerts := [(7, { st := { createdAt := 3,
                                 status := Protego.AlertStatus.pending,
                                 triggeredAt := none, cancelledAt := none },
                         dispatches := 0, cancelOks := 0 })] }
      { registry := { nextId := 1,
                      sessions := [{ id := 0, userId := 1, startTime := 0,
                                     endTime := some 9,
                                     status := Protego.SessionStatus.ended }] },
        alerts := [(7, { st := { createdAt := 3,
                                 status := Protego.AlertStatus.pending,
                                 triggeredAt := none, cancelledAt := none },
                         dispatches := 0, cancelOks := 0 })] }
      0 9 rfl).2.2

theorem Protego.countOutcome_sent_add_failed
    (l : List Protego.NotificationAttempt) :
    Protego.countOutcome l Protego.AttemptOutcome.sent
      + Protego.countOutcome l Protego.AttemptOutcome.failed = l.length := by
  induction l with
  | nil => rfl
  | cons a l ih =>
    unfold Protego.countOutcome at ih ⊢
    rw [List.filter_cons, List.filter_cons]
    cases h : a.outcome with
    | sent =>
      rw [if_pos (by decide), if_neg (by decide)]
      simp only [List.length_cons]
      omega
    | failed =>
      rw [if_neg (by decide), if_pos (by decide)]
      simp only [List.length_cons]
      omega

/-- Claim C9: dispatch against an empty trusted-contact list fails with
NoContactsError and makes zero provider calls; dispatch against a
non-empty contact list records exactly one NotificationAttempt per
contact, each depending only on that contact's own provider behaviour
(failures are independent, sent notifications are never rolled back),
the sent and failed counts always sum to the number of contacts, and
when some contacts failed while others were sent the overall result is
the spec's partial (here `incomplete`). -/
theorem Protego.dispatch_partial_failure_accounting
    (contacts : List String) (gw : String → Nat → Protego.SendOutcome)
    (h : contacts ≠ []) :
    (Protego.dispatch [] gw).result = Except.error Protego.EngineError.noContacts
    ∧ Protego.providerCalls (Protego.dispatch [] gw) = 0
    ∧ (Protego.dispatch contacts gw).attempts
        = contacts.map (Protego.attemptFor gw)
    ∧ (Protego.dispatch contacts gw).attempts.length = contacts.length
    ∧ Protego.countOutcome (Protego.dispatch contacts gw).attempts
          Protego.AttemptOutcome.sent
        + Protego.countOutcome (Protego.dispatch contacts gw).attempts
          Protego.AttemptOutcome.failed
      = contacts.length
    ∧ (0 < Protego.countOutcome (Protego.dispatch contacts gw).attempts
          Protego.AttemptOutcome.failed →
       0 < Protego.countOutcome (Protego.dispatch contacts gw).attempts
          Protego.AttemptOutcome.sent →
       (Protego.dispatch contacts gw).result
         = Except.ok Protego.DispatchResult.incomplete) := by
  have hne : contacts.isEmpty = false := by
    cases contacts
    · exact absurd rfl h
    · rfl
  have hAtt : (Protego.dispatch contacts gw).attempts
      = contacts.map (Protego.attemptFor gw) := by
    unfold Protego.dispatch
    rw [if_neg (by rw [hne]; exact Bool.false_ne_true)]
  refine ⟨rfl, rfl, hAtt, ?_, ?_, ?_⟩
  · rw [hAtt, List.length_map]
  · rw [hAtt, Protego.countOutcome_sent_add_failed, List.length_map]
  · intro hf hs
    rw [hAtt] at hf hs
    unfold Protego.dispatch
    rw [if_neg (by rw [hne]; exact Bool.false_ne_true)]
    dsimp only
    rw [if_neg (by omega), if_neg (by omega)]

/-- Witness for claim C9 at the spec's scenario: two contacts of which
one fails permanently yield the partial result with one failed and one
sent attempt. -/
theorem Protego.dispatch_partial_failure_accounting_witness :
    (Protego.dispatch ["alice", "bob"] Protego.gwOneBad).result
      = Except.ok Protego.DispatchResult.incomplete
    ∧ Protego.countOutcome
        (Protego.dispatch ["alice", "bob"] Protego.gwOneBad).attempts
        Protego.AttemptOutcome.failed = 1
    ∧ Protego.countOutcome
        (Protego.dispatch ["alice", "bob"] Protego.gwOneBad).attempts
        Protego.AttemptOutcome.sent = 1 := by
  refine ⟨?_, by decide, by decide⟩
  exact (Protego.dispatch_partial_failure_accounting ["alice", "bob"]
    Protego.gwOneBad (by decide)).2.2.2.2.2 (by decide) (by decide)
